import Mathlib

/-!
Relay interlock controller of the Arduino thermostat.

A shallow embedding of `Thermostat.h` / `Thermostat.cpp`.

* The object's members are the fields of the structure `Thermostat`; the
  hardware the code drives (digital output lines, the serial port) is carried
  in the same structure as explicit state.
* `unsigned long` is 32 bits wide on the AVR target: it is modelled by `Nat`
  with an explicit `% 2 ^ 32` wherever the source does arithmetic on it.
* `millis()` is the argument `now` of every operation.  A call takes no clock
  time, except for the `delay(10)` inside `turnOn(THERMO_AC)`, after which
  `millis()` reads `(now + 10) % 2 ^ 32`.
* The channel argument (`int type`, one of the three `THERMO_*` constants) is
  the enumeration `Channel`; other values index outside the arrays in the
  source and have no defined behaviour there.
-/

namespace Thermostat

/-! ## Constants of `Thermostat.h` -/

def RELAY_FAN_PIN : Nat := 6
def RELAY_HEAT_PIN : Nat := 7
def RELAY_AC_PIN : Nat := 8

def ACTION_OFF : Int := 0
def ACTION_HEAT : Int := 1
def ACTION_AC : Int := 2
def ACTION_FAN : Int := 3
def ACTION_WAIT : Int := 4

/-- Number of values of an `unsigned long` (32 bits on the AVR target). -/
def ULONG_RANGE : Nat := 2 ^ 32

/-- The three channel identifiers `THERMO_HEAT`, `THERMO_AC`, `THERMO_FAN`. -/
inductive Channel where
  | THERMO_HEAT
  | THERMO_AC
  | THERMO_FAN
deriving DecidableEq, Repr

open Channel

/-- Value of the `#define` of each channel identifier (the array index). -/
def Channel.toNat : Channel → Nat
  | THERMO_HEAT => 0
  | THERMO_AC => 1
  | THERMO_FAN => 2

/-- Level of a digital output line. -/
inductive Level where
  | LOW
  | HIGH
deriving DecidableEq, Repr

open Level

end Thermostat

open Thermostat Thermostat.Channel Thermostat.Level

/-- The members of `class Thermostat`, followed by the hardware state the
member functions act on. -/
structure Thermostat where
  _waitUntil : Nat
  _acOffDelay : Nat
  _heatOffDelay : Nat
  _relayPins : Channel → Nat
  _typeOnOff : Channel → Bool
  _lastOnTime : Channel → Nat
  _debug : Bool
  /-- Level last written to each pin by `digitalWrite`. -/
  pinLevel : Nat → Level
  /-- Whether `pinMode(pin, OUTPUT)` has been called on the pin. -/
  pinOutput : Nat → Bool
  /-- Everything printed to `Serial`, oldest first. -/
  serial : List String

namespace Thermostat

/-- Arduino `digitalWrite(pin, level)`: the level last written is recorded. -/
def digitalWrite (self : Thermostat) (pin : Nat) (level : Level) : Thermostat :=
  { self with pinLevel := Function.update self.pinLevel pin level }

/-- Arduino `pinMode(pin, OUTPUT)`. -/
def pinModeOutput (self : Thermostat) (pin : Nat) : Thermostat :=
  { self with pinOutput := Function.update self.pinOutput pin true }

/-- Arduino `Serial.print(text)`. -/
def serialPrint (self : Thermostat) (text : String) : Thermostat :=
  { self with serial := self.serial ++ [text] }

/-- Arduino `Serial.println(text)`. -/
def serialPrintln (self : Thermostat) (text : String) : Thermostat :=
  { self with serial := self.serial ++ [text ++ "\r\n"] }

/-- Value that `millis()` reads after `delay(ms)` when it read `now` before. -/
def millisAfterDelay (now ms : Nat) : Nat := (now + ms) % ULONG_RANGE

/-- Constructor `Thermostat::Thermostat()`, applied to the storage `self` of the object.
The constructor assigns the two delays and the pin table, and for each channel
writes HIGH to its pin and makes it an output.  It assigns none of
`_waitUntil`, `_typeOnOff`, `_lastOnTime`, `_debug`: the file-scope variables
of `Thermostat.cpp` with these names are other objects, hidden by the members
inside every member function. -/
def construct (self : Thermostat) : Thermostat :=
  let s0 : Thermostat :=
    { self with
      _acOffDelay := 300000
      _heatOffDelay := 120000
      _relayPins := fun type =>
        match type with
        | THERMO_HEAT => RELAY_HEAT_PIN
        | THERMO_AC => RELAY_AC_PIN
        | THERMO_FAN => RELAY_FAN_PIN }
  [THERMO_HEAT, THERMO_AC, THERMO_FAN].foldl
    (fun s i => pinModeOutput (digitalWrite s (s._relayPins i) HIGH) (s._relayPins i)) s0

/-- Member function `Thermostat::isOn`. -/
def isOn (self : Thermostat) (type : Channel) : Bool :=
  self._typeOnOff type

/-- Member function `Thermostat::isWaiting`. -/
def isWaiting (self : Thermostat) (now : Nat) : Bool :=
  decide (self._waitUntil > now)

/-- Member function `Thermostat::waitingSecLeft`: the subtraction is unsigned, 32 bits. -/
def waitingSecLeft (self : Thermostat) (now : Nat) : Nat :=
  (((self._waitUntil : Int) - (now : Int)) % (ULONG_RANGE : Int)).toNat / 1000

/-- Member function `Thermostat::serialDebug`. -/
def serialDebug (self : Thermostat) (enable : Bool) : Thermostat :=
  { self with _debug := enable }

/-- Member function `Thermostat::typeToName`. -/
def typeToName (type : Channel) : String :=
  match type with
  | THERMO_HEAT => "THERMO_HEAT"
  | THERMO_AC => "THERMO_AC"
  | THERMO_FAN => "THERMO_FAN"

/-- Member function `Thermostat::getLastOnTime`. -/
def getLastOnTime (self : Thermostat) (type : Channel) : Nat :=
  self._lastOnTime type

/-- Member function `Thermostat::getCurrentAction`. -/
def getCurrentAction (self : Thermostat) (now : Nat) : Int :=
  if isWaiting self now then ACTION_WAIT
  else if isOn self THERMO_HEAT then ACTION_HEAT
  else if isOn self THERMO_AC then ACTION_AC
  else if isOn self THERMO_FAN then ACTION_FAN
  else ACTION_OFF

/-- Member function `Thermostat::isAction`. -/
def isAction (self : Thermostat) (action : Int) (now : Nat) : Bool :=
  decide (getCurrentAction self now = action)

/-- Member function `Thermostat::_setRelay`. -/
def _setRelay (self : Thermostat) (type : Channel) (onOff : Bool) (now : Nat) : Thermostat :=
  let s1 :=
    if self._debug then
      serialPrintln
        (if onOff then serialPrint self "Enabling " else serialPrint self "Disabling ")
        (typeToName type)
    else self
  let s2 :=
    if onOff then { s1 with _lastOnTime := Function.update s1._lastOnTime type now } else s1
  let s3 := digitalWrite s2 (s2._relayPins type) (if onOff then LOW else HIGH)
  { s3 with _typeOnOff := Function.update s3._typeOnOff type onOff }

/-- Member function `Thermostat::_setWait`. -/
def _setWait (self : Thermostat) (time : Nat) (now : Nat) : Thermostat :=
  let s1 :=
    if self._debug then
      serialPrintln (serialPrint (serialPrint self "Waiting for ") (toString (time / 1000))) " sec"
    else self
  { s1 with _waitUntil := (now + time) % ULONG_RANGE }

/-- The `case THERMO_AC` block of `Thermostat::turnOff`. -/
def turnOffCaseAC (self : Thermostat) (now : Nat) : Thermostat :=
  _setWait (_setRelay (_setRelay self THERMO_AC false now) THERMO_FAN false now)
    self._acOffDelay now

/-- The call `turnOff(THERMO_AC)` that `Thermostat::turnOff` makes on itself in
its `THERMO_FAN` case: the guard of `turnOff`, then its `case THERMO_AC`, which
calls no further (`turnOff_THERMO_AC` below shows that it is `turnOff` at
`THERMO_AC`). -/
def turnOffAC (self : Thermostat) (now : Nat) : Thermostat :=
  if !isOn self THERMO_AC then self
  else turnOffCaseAC self now

/-- Member function `Thermostat::turnOff`. -/
def turnOff (self : Thermostat) (type : Channel) (now : Nat) : Thermostat :=
  if !isOn self type then self
  else
    match type with
    | THERMO_HEAT =>
      _setWait (_setRelay self THERMO_HEAT false now) self._heatOffDelay now
    | THERMO_AC =>
      turnOffCaseAC self now
    | THERMO_FAN =>
      if isOn self THERMO_AC then turnOffAC self now
      else _setRelay self THERMO_FAN false now

/-- Member function `Thermostat::turnAllOff`. -/
def turnAllOff (self : Thermostat) (now : Nat) : Thermostat :=
  turnOff (turnOff (turnOff self THERMO_HEAT now) THERMO_AC now) THERMO_FAN now

/-- Member function `Thermostat::turnOn`: the returned `boolean` and the state after the call. -/
def turnOn (self : Thermostat) (type : Channel) (now : Nat) : Bool × Thermostat :=
  if isOn self type then (true, self)
  else if isWaiting self now then (false, self)
  else
    match type with
    | THERMO_HEAT =>
      if isOn self THERMO_AC then (false, turnOff self THERMO_AC now)
      else
        let s1 := if isOn self THERMO_FAN then turnOff self THERMO_FAN now else self
        (true, _setRelay s1 THERMO_HEAT true now)
    | THERMO_AC =>
      if isOn self THERMO_HEAT then (false, turnOff self THERMO_HEAT now)
      else
        (true, _setRelay (_setRelay self THERMO_AC true now) THERMO_FAN true
          (millisAfterDelay now 10))
    | THERMO_FAN =>
      (true, _setRelay self THERMO_FAN true now)

/-! ## Sequences of calls -/

/-- A call of one of the three mutating operations of the public interface. -/
inductive Call where
  | turnOn (type : Channel)
  | turnOff (type : Channel)
  | turnAllOff
deriving DecidableEq, Repr

/-- State after one call made when `millis()` reads `now`. -/
def exec (self : Thermostat) (call : Call) (now : Nat) : Thermostat :=
  match call with
  | Call.turnOn type => (turnOn self type now).2
  | Call.turnOff type => turnOff self type now
  | Call.turnAllOff => turnAllOff self now

/-- State after a finite sequence of calls, each with its clock value. -/
def run (self : Thermostat) (calls : List (Call × Nat)) : Thermostat :=
  calls.foldl (fun s c => exec s c.1 c.2) self

/-- Storage of an object of static storage duration before its constructor
runs: every member zero, no pin written, nothing printed. -/
def zeroed : Thermostat :=
  { _waitUntil := 0
    _acOffDelay := 0
    _heatOffDelay := 0
    _relayPins := fun _ => 0
    _typeOnOff := fun _ => false
    _lastOnTime := fun _ => 0
    _debug := false
    pinLevel := fun _ => LOW
    pinOutput := fun _ => false
    serial := [] }

/-- A state is reachable when a finite sequence of calls leads to it from a
state the constructor produced with all three channels OFF. -/
def Reachable (s : Thermostat) : Prop :=
  ∃ (mem : Thermostat) (calls : List (Call × Nat)),
    (∀ c, isOn (construct mem) c = false) ∧ run (construct mem) calls = s

/-- Heat and AC are not both ON. -/
def HeatAcExclusive (s : Thermostat) : Prop :=
  ¬ (isOn s THERMO_HEAT = true ∧ isOn s THERMO_AC = true)

/-- While AC is ON, Fan is ON. -/
def AcHasFan (s : Thermostat) : Prop :=
  isOn s THERMO_AC = true → isOn s THERMO_FAN = true

/-- The delays the constructor assigned. -/
def DefaultDelays (s : Thermostat) : Prop :=
  s._acOffDelay = 300000 ∧ s._heatOffDelay = 120000

/-- The pin table the constructor assigned. -/
def DefaultPins (s : Thermostat) : Prop :=
  s._relayPins THERMO_HEAT = RELAY_HEAT_PIN ∧ s._relayPins THERMO_AC = RELAY_AC_PIN ∧
    s._relayPins THERMO_FAN = RELAY_FAN_PIN

/-- Each relay pin carries LOW while its channel is ON and HIGH while it is
OFF, on the pins the constructor assigned. -/
def PinsMirror (s : Thermostat) : Prop :=
  DefaultPins s ∧ ∀ c, s.pinLevel (s._relayPins c) = if isOn s c then LOW else HIGH

/-- Heat and AC are not both ON, and whichever is ON was switched on at or
after the current deadline. -/
def OnAfterWait (s : Thermostat) : Prop :=
  HeatAcExclusive s ∧
    (isOn s THERMO_HEAT = true → s._waitUntil ≤ s._lastOnTime THERMO_HEAT) ∧
    (isOn s THERMO_AC = true → s._waitUntil ≤ s._lastOnTime THERMO_AC)

/-! ## States used as concrete inputs -/

/-- The object just after construction in zeroed static storage. -/
def fresh : Thermostat := construct zeroed

/-- Heat, then the fan beside it, switched on at 1 s; Heat switched off at
2 s.  The fan is still running and the cool-down lasts until 122 s. -/
def fanOnCoolingDown : Thermostat :=
  run fresh
    [(Call.turnOn THERMO_HEAT, 1000), (Call.turnOn THERMO_FAN, 1000),
     (Call.turnOff THERMO_HEAT, 2000)]

/-- The fan alone switched on at 1 s. -/
def fanAlone : Thermostat :=
  run fresh [(Call.turnOn THERMO_FAN, 1000)]

/-- AC (and with it the fan) switched on at 1 s. -/
def acRunning : Thermostat :=
  run fresh [(Call.turnOn THERMO_AC, 1000)]

/-- Heat switched on at 1 s. -/
def heatRunning : Thermostat :=
  run fresh [(Call.turnOn THERMO_HEAT, 1000)]

/-! ## The recursion of `turnOff`, and how each step acts on the members -/

/-- The call `turnOff(THERMO_AC)` made inside `turnOff` is `turnOff` itself at
`THERMO_AC`: the definition above satisfies the recursive equation of the
source. -/
theorem turnOff_THERMO_AC (s : Thermostat) (now : Nat) :
    turnOff s THERMO_AC now = turnOffAC s now := by
  unfold turnOff turnOffAC
  by_cases h : isOn s THERMO_AC = true <;> simp [h]

@[simp] theorem _setRelay_typeOnOff (s : Thermostat) (t : Channel) (b : Bool) (now : Nat) :
    (_setRelay s t b now)._typeOnOff = Function.update s._typeOnOff t b := by
  unfold _setRelay digitalWrite serialPrintln serialPrint
  cases b <;> cases s._debug <;> rfl

@[simp] theorem _setRelay_waitUntil (s : Thermostat) (t : Channel) (b : Bool) (now : Nat) :
    (_setRelay s t b now)._waitUntil = s._waitUntil := by
  unfold _setRelay digitalWrite serialPrintln serialPrint
  cases b <;> cases s._debug <;> rfl

@[simp] theorem _setRelay_acOffDelay (s : Thermostat) (t : Channel) (b : Bool) (now : Nat) :
    (_setRelay s t b now)._acOffDelay = s._acOffDelay := by
  unfold _setRelay digitalWrite serialPrintln serialPrint
  cases b <;> cases s._debug <;> rfl

@[simp] theorem _setRelay_heatOffDelay (s : Thermostat) (t : Channel) (b : Bool) (now : Nat) :
    (_setRelay s t b now)._heatOffDelay = s._heatOffDelay := by
  unfold _setRelay digitalWrite serialPrintln serialPrint
  cases b <;> cases s._debug <;> rfl

@[simp] theorem _setRelay_relayPins (s : Thermostat) (t : Channel) (b : Bool) (now : Nat) :
    (_setRelay s t b now)._relayPins = s._relayPins := by
  unfold _setRelay digitalWrite serialPrintln serialPrint
  cases b <;> cases s._debug <;> rfl

@[simp] theorem _setRelay_lastOnTime (s : Thermostat) (t : Channel) (b : Bool) (now : Nat) :
    (_setRelay s t b now)._lastOnTime =
      if b then Function.update s._lastOnTime t now else s._lastOnTime := by
  unfold _setRelay digitalWrite serialPrintln serialPrint
  cases b <;> cases s._debug <;> rfl

@[simp] theorem _setWait_typeOnOff (s : Thermostat) (time now : Nat) :
    (_setWait s time now)._typeOnOff = s._typeOnOff := by
  unfold _setWait serialPrintln serialPrint
  cases s._debug <;> rfl

@[simp] theorem _setWait_waitUntil (s : Thermostat) (time now : Nat) :
    (_setWait s time now)._waitUntil = (now + time) % ULONG_RANGE := by
  unfold _setWait serialPrintln serialPrint
  cases s._debug <;> rfl

@[simp] theorem _setWait_acOffDelay (s : Thermostat) (time now : Nat) :
    (_setWait s time now)._acOffDelay = s._acOffDelay := by
  unfold _setWait serialPrintln serialPrint
  cases s._debug <;> rfl

@[simp] theorem _setWait_heatOffDelay (s : Thermostat) (time now : Nat) :
    (_setWait s time now)._heatOffDelay = s._heatOffDelay := by
  unfold _setWait serialPrintln serialPrint
  cases s._debug <;> rfl

@[simp] theorem _setWait_lastOnTime (s : Thermostat) (time now : Nat) :
    (_setWait s time now)._lastOnTime = s._lastOnTime := by
  unfold _setWait serialPrintln serialPrint
  cases s._debug <;> rfl

/-- The on/off flags after `turnOff`. -/
theorem turnOff_typeOnOff (s : Thermostat) (type : Channel) (now : Nat) :
    (turnOff s type now)._typeOnOff =
      if s._typeOnOff type = false then s._typeOnOff
      else
        match type with
        | THERMO_HEAT => Function.update s._typeOnOff THERMO_HEAT false
        | THERMO_AC =>
          Function.update (Function.update s._typeOnOff THERMO_AC false) THERMO_FAN false
        | THERMO_FAN =>
          if s._typeOnOff THERMO_AC = true then
            Function.update (Function.update s._typeOnOff THERMO_AC false) THERMO_FAN false
          else Function.update s._typeOnOff THERMO_FAN false := by
  unfold turnOff turnOffAC turnOffCaseAC isOn
  cases type <;> cases h : s._typeOnOff _ <;> simp [h]
  all_goals
    cases h2 : s._typeOnOff THERMO_AC <;> simp [h2]

/-- The on/off flags after `turnOn`. -/
theorem turnOn_typeOnOff (s : Thermostat) (type : Channel) (now : Nat) :
    (turnOn s type now).2._typeOnOff =
      if s._typeOnOff type = true then s._typeOnOff
      else if now < s._waitUntil then s._typeOnOff
      else
        match type with
        | THERMO_HEAT =>
          if s._typeOnOff THERMO_AC = true then
            Function.update (Function.update s._typeOnOff THERMO_AC false) THERMO_FAN false
          else
            Function.update (Function.update s._typeOnOff THERMO_FAN false) THERMO_HEAT true
        | THERMO_AC =>
          if s._typeOnOff THERMO_HEAT = true then
            Function.update s._typeOnOff THERMO_HEAT false
          else
            Function.update (Function.update s._typeOnOff THERMO_AC true) THERMO_FAN true
        | THERMO_FAN => Function.update s._typeOnOff THERMO_FAN true := by
  unfold turnOn isWaiting isOn
  by_cases h : s._typeOnOff type = true
  · simp [h]
  · by_cases hw : now < s._waitUntil
    · simp [h, hw]
    · simp only [h, hw, if_false, decide_False, Bool.false_eq_true]
      cases type
      · by_cases hac : s._typeOnOff THERMO_AC = true
        · simp [hac, turnOff_typeOnOff]
        · by_cases hfan : s._typeOnOff THERMO_FAN = true
          · simp [hac, hfan, turnOff_typeOnOff]
          · have hupd : Function.update s._typeOnOff THERMO_FAN false = s._typeOnOff := by
              funext c
              by_cases hc : c = THERMO_FAN
              · subst hc; simpa using (Bool.eq_false_iff.mpr hfan).symm
              · simp [Function.update, hc]
            simp [hac, hfan, hupd]
      · by_cases hh : s._typeOnOff THERMO_HEAT = true
        · simp [hh, turnOff_typeOnOff]
        · simp [hh]
      · simp

theorem turnOff_HeatAcExclusive (s : Thermostat) (type : Channel) (now : Nat)
    (h : HeatAcExclusive s) : HeatAcExclusive (turnOff s type now) := by
  unfold HeatAcExclusive isOn at *
  rw [turnOff_typeOnOff]
  cases type <;> cases h1 : s._typeOnOff THERMO_HEAT <;> cases h2 : s._typeOnOff THERMO_AC <;>
    cases h3 : s._typeOnOff THERMO_FAN <;> simp_all

theorem turnOn_HeatAcExclusive (s : Thermostat) (type : Channel) (now : Nat)
    (h : HeatAcExclusive s) : HeatAcExclusive (turnOn s type now).2 := by
  unfold HeatAcExclusive isOn at *
  rw [turnOn_typeOnOff]
  by_cases hw : now < s._waitUntil <;> simp only [hw, if_true, if_false] <;>
  cases type <;> cases h1 : s._typeOnOff THERMO_HEAT <;> cases h2 : s._typeOnOff THERMO_AC <;>
    cases h3 : s._typeOnOff THERMO_FAN <;> simp_all

theorem turnOff_AcHasFan (s : Thermostat) (type : Channel) (now : Nat)
    (h : AcHasFan s) : AcHasFan (turnOff s type now) := by
  unfold AcHasFan isOn at *
  rw [turnOff_typeOnOff]
  cases type <;> cases h1 : s._typeOnOff THERMO_HEAT <;> cases h2 : s._typeOnOff THERMO_AC <;>
    cases h3 : s._typeOnOff THERMO_FAN <;> simp_all

theorem turnOn_AcHasFan (s : Thermostat) (type : Channel) (now : Nat)
    (h : AcHasFan s) : AcHasFan (turnOn s type now).2 := by
  unfold AcHasFan isOn at *
  rw [turnOn_typeOnOff]
  by_cases hw : now < s._waitUntil <;> simp only [hw, if_true, if_false] <;>
  cases type <;> cases h1 : s._typeOnOff THERMO_HEAT <;> cases h2 : s._typeOnOff THERMO_AC <;>
    cases h3 : s._typeOnOff THERMO_FAN <;> simp_all

theorem exec_HeatAcExclusive (s : Thermostat) (call : Call) (now : Nat)
    (h : HeatAcExclusive s) : HeatAcExclusive (exec s call now) := by
  cases call with
  | turnOn type => exact turnOn_HeatAcExclusive s type now h
  | turnOff type => exact turnOff_HeatAcExclusive s type now h
  | turnAllOff =>
    exact turnOff_HeatAcExclusive _ _ _
      (turnOff_HeatAcExclusive _ _ _ (turnOff_HeatAcExclusive _ _ _ h))

theorem exec_AcHasFan (s : Thermostat) (call : Call) (now : Nat)
    (h : AcHasFan s) : AcHasFan (exec s call now) := by
  cases call with
  | turnOn type => exact turnOn_AcHasFan s type now h
  | turnOff type => exact turnOff_AcHasFan s type now h
  | turnAllOff =>
    exact turnOff_AcHasFan _ _ _ (turnOff_AcHasFan _ _ _ (turnOff_AcHasFan _ _ _ h))

/-- A property that every call preserves holds after every sequence of calls. -/
theorem run_preserves (P : Thermostat → Prop)
    (hstep : ∀ s call now, P s → P (exec s call now))
    (s : Thermostat) (calls : List (Call × Nat)) (h : P s) : P (run s calls) := by
  induction calls generalizing s with
  | nil => exact h
  | cons c cs ih => exact ih (exec s c.1 c.2) (hstep s c.1 c.2 h)

theorem Reachable.heatAcExclusive {s : Thermostat} (h : Reachable s) : HeatAcExclusive s := by
  obtain ⟨mem, calls, hoff, rfl⟩ := h
  refine run_preserves HeatAcExclusive exec_HeatAcExclusive _ calls ?_
  intro hc
  rw [hoff] at hc
  exact Bool.noConfusion hc.1

theorem Reachable.acHasFan {s : Thermostat} (h : Reachable s) : AcHasFan s := by
  obtain ⟨mem, calls, hoff, rfl⟩ := h
  refine run_preserves AcHasFan exec_AcHasFan _ calls ?_
  intro hc
  rw [hoff] at hc
  exact Bool.noConfusion hc

end Thermostat

namespace Thermostat

/-! ## Members that no operation assigns -/

theorem turnOff_acOffDelay (s : Thermostat) (type : Channel) (now : Nat) :
    (turnOff s type now)._acOffDelay = s._acOffDelay := by
  unfold turnOff turnOffAC turnOffCaseAC
  cases type <;> simp only [] <;> split_ifs <;> simp

theorem turnOff_heatOffDelay (s : Thermostat) (type : Channel) (now : Nat) :
    (turnOff s type now)._heatOffDelay = s._heatOffDelay := by
  unfold turnOff turnOffAC turnOffCaseAC
  cases type <;> simp only [] <;> split_ifs <;> simp

theorem turnOn_acOffDelay (s : Thermostat) (type : Channel) (now : Nat) :
    (turnOn s type now).2._acOffDelay = s._acOffDelay := by
  unfold turnOn
  cases type <;> simp only [] <;> split_ifs <;> simp [turnOff_acOffDelay]

theorem turnOn_heatOffDelay (s : Thermostat) (type : Channel) (now : Nat) :
    (turnOn s type now).2._heatOffDelay = s._heatOffDelay := by
  unfold turnOn
  cases type <;> simp only [] <;> split_ifs <;> simp [turnOff_heatOffDelay]

theorem exec_DefaultDelays (s : Thermostat) (call : Call) (now : Nat)
    (h : DefaultDelays s) : DefaultDelays (exec s call now) := by
  unfold DefaultDelays at *
  cases call with
  | turnOn type => simpa [exec, turnOn_acOffDelay, turnOn_heatOffDelay] using h
  | turnOff type => simpa [exec, turnOff_acOffDelay, turnOff_heatOffDelay] using h
  | turnAllOff => simpa [exec, turnAllOff, turnOff_acOffDelay, turnOff_heatOffDelay] using h

theorem Reachable.defaultDelays {s : Thermostat} (h : Reachable s) : DefaultDelays s := by
  obtain ⟨mem, calls, -, rfl⟩ := h
  exact run_preserves DefaultDelays exec_DefaultDelays _ calls ⟨rfl, rfl⟩

theorem fresh_reaches (calls : List (Call × Nat)) : Reachable (run fresh calls) :=
  ⟨zeroed, calls, fun _ => rfl, rfl⟩

end Thermostat

namespace Thermostat

/-! ## Interlock invariants -/

/-- C1: mutual exclusion.  In every state reachable from a post-construction
state with all three channels OFF, by any finite sequence of `turnOn`,
`turnOff` and `turnAllOff` calls with any channel arguments and any clock
values, `isOn(THERMO_HEAT)` and `isOn(THERMO_AC)` are not both true. -/
theorem heat_and_ac_never_both_on (s : Thermostat) (h : Reachable s) :
    ¬ (isOn s THERMO_HEAT = true ∧ isOn s THERMO_AC = true) :=
  h.heatAcExclusive

/-- C1 at a concrete run: Heat on, then two requests for AC, the second after
the cool-down; AC runs and Heat does not. -/
theorem heat_and_ac_never_both_on_witness :
    Reachable (run fresh
        [(Call.turnOn THERMO_HEAT, 1000), (Call.turnOn THERMO_AC, 2000),
         (Call.turnOn THERMO_AC, 130000)]) ∧
      isOn (run fresh
        [(Call.turnOn THERMO_HEAT, 1000), (Call.turnOn THERMO_AC, 2000),
         (Call.turnOn THERMO_AC, 130000)]) THERMO_AC = true ∧
      ¬ (isOn (run fresh
          [(Call.turnOn THERMO_HEAT, 1000), (Call.turnOn THERMO_AC, 2000),
           (Call.turnOn THERMO_AC, 130000)]) THERMO_HEAT = true ∧
        isOn (run fresh
          [(Call.turnOn THERMO_HEAT, 1000), (Call.turnOn THERMO_AC, 2000),
           (Call.turnOn THERMO_AC, 130000)]) THERMO_AC = true) :=
  ⟨fresh_reaches _, by decide, heat_and_ac_never_both_on _ (fresh_reaches _)⟩

/-- C2: fan coupling.  In every state reachable from a post-construction state
with all channels OFF, by any finite sequence of `turnOn`, `turnOff` and
`turnAllOff` calls at any clock values, `isOn(THERMO_AC)` implies
`isOn(THERMO_FAN)`. -/
theorem ac_on_implies_fan_on (s : Thermostat) (h : Reachable s) :
    isOn s THERMO_AC = true → isOn s THERMO_FAN = true :=
  h.acHasFan

/-- C2 at a concrete run: AC switched on over a fan that was switched on and
off again before. -/
theorem ac_on_implies_fan_on_witness :
    Reachable (run fresh
        [(Call.turnOn THERMO_FAN, 1000), (Call.turnOff THERMO_FAN, 2000),
         (Call.turnOn THERMO_AC, 3000)]) ∧
      isOn (run fresh
        [(Call.turnOn THERMO_FAN, 1000), (Call.turnOff THERMO_FAN, 2000),
         (Call.turnOn THERMO_AC, 3000)]) THERMO_AC = true ∧
      isOn (run fresh
        [(Call.turnOn THERMO_FAN, 1000), (Call.turnOff THERMO_FAN, 2000),
         (Call.turnOn THERMO_AC, 3000)]) THERMO_FAN = true :=
  ⟨fresh_reaches _, by decide,
    ac_on_implies_fan_on _ (fresh_reaches _) (by decide)⟩

/-! ## Requests during a cool-down -/

/-- C3 as stated fails: in a reachable state with the fan ON and a cool-down
running, `turnOn(THERMO_FAN)` before the deadline returns true, not false. -/
theorem turnOn_waiting_returns_false_counterexample :
    Reachable fanOnCoolingDown ∧
      3000 < fanOnCoolingDown._waitUntil ∧
      isWaiting fanOnCoolingDown 3000 = true ∧
      (turnOn fanOnCoolingDown THERMO_FAN 3000).1 = true :=
  ⟨fresh_reaches _, by decide, by decide, by decide⟩

/-- C3, amended: for every state, every channel `c` and every clock value `now`
with `now < waitUntil` (so `isWaiting()` is true), `turnOn(c)` leaves the entire
controller state unchanged, and it returns false when `c` is OFF; when `c` is
already ON it returns true. -/
theorem turnOn_waiting_no_effect (s : Thermostat) (c : Channel) (now : Nat)
    (h : now < s._waitUntil) :
    isWaiting s now = true ∧
      (turnOn s c now).2 = s ∧
      (isOn s c = false → (turnOn s c now).1 = false) ∧
      (isOn s c = true → (turnOn s c now).1 = true) := by
  have hw : isWaiting s now = true := by simp [isWaiting, h]
  unfold turnOn
  cases hc : isOn s c <;> simp [hw]

/-- C3 amended, at a concrete input: Heat requested at 3 s in a cool-down that
lasts until 122 s. -/
theorem turnOn_waiting_no_effect_witness :
    3000 < fanOnCoolingDown._waitUntil ∧
      isWaiting fanOnCoolingDown 3000 = true ∧
      (turnOn fanOnCoolingDown THERMO_HEAT 3000).2 = fanOnCoolingDown ∧
      (isOn fanOnCoolingDown THERMO_HEAT = false →
        (turnOn fanOnCoolingDown THERMO_HEAT 3000).1 = false) ∧
      (isOn fanOnCoolingDown THERMO_HEAT = true →
        (turnOn fanOnCoolingDown THERMO_HEAT 3000).1 = true) :=
  ⟨by decide, turnOn_waiting_no_effect fanOnCoolingDown THERMO_HEAT 3000 (by decide)⟩

end Thermostat

namespace Thermostat

/-- The deadline after `turnOff`. -/
theorem turnOff_waitUntil (s : Thermostat) (type : Channel) (now : Nat) :
    (turnOff s type now)._waitUntil =
      if s._typeOnOff type = false then s._waitUntil
      else
        match type with
        | THERMO_HEAT => (now + s._heatOffDelay) % ULONG_RANGE
        | THERMO_AC => (now + s._acOffDelay) % ULONG_RANGE
        | THERMO_FAN =>
          if s._typeOnOff THERMO_AC = true then (now + s._acOffDelay) % ULONG_RANGE
          else s._waitUntil := by
  unfold turnOff turnOffAC turnOffCaseAC isOn
  cases type <;> cases h : s._typeOnOff _ <;> simp [h]
  all_goals
    cases h2 : s._typeOnOff THERMO_AC <;> simp [h2]

/-- C4 as stated fails: switching off a fan that runs alone starts no
cool-down, and Heat switches on at the same clock value. -/
theorem turnOff_starts_wait_counterexample :
    Reachable fanAlone ∧
      isOn fanAlone THERMO_FAN = true ∧
      1000 + max fanAlone._heatOffDelay fanAlone._acOffDelay < 2 ^ 32 ∧
      isWaiting (turnOff fanAlone THERMO_FAN 1000) 1000 = false ∧
      isOn (turnOff fanAlone THERMO_FAN 1000) THERMO_HEAT = false ∧
      isOn (turnOn (turnOff fanAlone THERMO_FAN 1000) THERMO_HEAT 1000).2 THERMO_HEAT = true :=
  ⟨fresh_reaches _, by decide, by decide, by decide, by decide, by decide⟩

/-- C4, amended: for every reachable state, every channel `c` with `isOn(c)`
true that is `THERMO_HEAT` or `THERMO_AC`, or is `THERMO_FAN` while AC is ON,
and every clock value `now` with `now + max(heatOffDelay, acOffDelay) < 2^32`:
after `turnOff(c)` at `now`, `isWaiting()` evaluated at `now` is true, and at
every clock value before the new deadline `turnOn` of any channel leaves the
state unchanged, so no channel goes from OFF to ON before the wait expires. -/
theorem turnOff_starts_wait (s : Thermostat) (hr : Reachable s) (c : Channel) (now : Nat)
    (hon : isOn s c = true)
    (hfan : c = THERMO_FAN → isOn s THERMO_AC = true)
    (hnow : now + max s._heatOffDelay s._acOffDelay < 2 ^ 32) :
    isWaiting (turnOff s c now) now = true ∧
      ∀ (d : Channel) (t : Nat), t < (turnOff s c now)._waitUntil →
        (turnOn (turnOff s c now) d t).2 = turnOff s c now ∧
        ∀ e, isOn (turnOn (turnOff s c now) d t).2 e = isOn (turnOff s c now) e := by
  obtain ⟨hac, hheat⟩ := hr.defaultDelays
  have hwait : now < (turnOff s c now)._waitUntil := by
    rw [turnOff_waitUntil]
    unfold isOn at hon hfan
    have hle1 : s._heatOffDelay ≤ max s._heatOffDelay s._acOffDelay := le_max_left _ _
    have hle2 : s._acOffDelay ≤ max s._heatOffDelay s._acOffDelay := le_max_right _ _
    have h32 : ULONG_RANGE = 2 ^ 32 := rfl
    simp only [hon, Bool.true_eq_false, if_false]
    cases c
    · simp only []
      rw [h32, Nat.mod_eq_of_lt (by omega)]
      omega
    · simp only []
      rw [h32, Nat.mod_eq_of_lt (by omega)]
      omega
    · simp only [hfan rfl, if_true]
      rw [h32, Nat.mod_eq_of_lt (by omega)]
      omega
  refine ⟨by simp [isWaiting, hwait], ?_⟩
  intro d t ht
  have hsame : (turnOn (turnOff s c now) d t).2 = turnOff s c now := by
    have hw : isWaiting (turnOff s c now) t = true := by simp [isWaiting, ht]
    unfold turnOn
    cases hd : isOn (turnOff s c now) d <;> simp [hw]
  exact ⟨hsame, fun e => by rw [hsame]⟩

/-- C4 amended, at a concrete input: AC switched off at 5 s. -/
theorem turnOff_starts_wait_witness :
    Reachable acRunning ∧
      isOn acRunning THERMO_AC = true ∧
      5000 + max acRunning._heatOffDelay acRunning._acOffDelay < 2 ^ 32 ∧
      isWaiting (turnOff acRunning THERMO_AC 5000) 5000 = true ∧
      ∀ (d : Channel) (t : Nat), t < (turnOff acRunning THERMO_AC 5000)._waitUntil →
        (turnOn (turnOff acRunning THERMO_AC 5000) d t).2 = turnOff acRunning THERMO_AC 5000 ∧
        ∀ e, isOn (turnOn (turnOff acRunning THERMO_AC 5000) d t).2 e =
          isOn (turnOff acRunning THERMO_AC 5000) e :=
  ⟨fresh_reaches _, by decide, by decide,
    turnOff_starts_wait acRunning (fresh_reaches _) THERMO_AC 5000 (by decide)
      (fun h => Channel.noConfusion h) (by decide)⟩

/-- C5: `turnOff(THERMO_AC)` postcondition.  For every state with AC ON and
every clock value `now` with `now + acOffDelay < 2^32`, after
`turnOff(THERMO_AC)` at `now` AC and Fan are OFF, Heat is as before, and
`waitUntil = now + acOffDelay`; with `acOffDelay = 300000`, `isWaiting()` is
true at every `t` with `now ≤ t < now + 300000` and false at
`t = now + 300000`. -/
theorem turnOff_AC_post (s : Thermostat) (now : Nat)
    (hon : isOn s THERMO_AC = true) (hnow : now + s._acOffDelay < 2 ^ 32) :
    isOn (turnOff s THERMO_AC now) THERMO_AC = false ∧
      isOn (turnOff s THERMO_AC now) THERMO_FAN = false ∧
      isOn (turnOff s THERMO_AC now) THERMO_HEAT = isOn s THERMO_HEAT ∧
      (turnOff s THERMO_AC now)._waitUntil = now + s._acOffDelay ∧
      (s._acOffDelay = 300000 →
        (∀ t, now ≤ t → t < now + 300000 → isWaiting (turnOff s THERMO_AC now) t = true) ∧
        isWaiting (turnOff s THERMO_AC now) (now + 300000) = false) := by
  have hw : (turnOff s THERMO_AC now)._waitUntil = now + s._acOffDelay := by
    rw [turnOff_waitUntil]
    unfold isOn at hon
    have h32 : ULONG_RANGE = 2 ^ 32 := rfl
    simp only [hon, Bool.true_eq_false, if_false]
    rw [h32, Nat.mod_eq_of_lt hnow]
  unfold isOn at hon
  refine ⟨?_, ?_, ?_, hw, ?_⟩
  · simp [isOn, turnOff_typeOnOff, hon]
  · simp [isOn, turnOff_typeOnOff, hon]
  · simp [isOn, turnOff_typeOnOff, hon]
  · intro hd
    unfold isWaiting
    rw [hw, hd]
    refine ⟨fun t _ ht => by simpa using ht, by simp⟩

/-- C5 at a concrete input: AC switched off at 5 s. -/
theorem turnOff_AC_post_witness :
    isOn acRunning THERMO_AC = true ∧ 5000 + acRunning._acOffDelay < 2 ^ 32 ∧
      isOn (turnOff acRunning THERMO_AC 5000) THERMO_AC = false ∧
      isOn (turnOff acRunning THERMO_AC 5000) THERMO_FAN = false ∧
      isOn (turnOff acRunning THERMO_AC 5000) THERMO_HEAT = isOn acRunning THERMO_HEAT ∧
      (turnOff acRunning THERMO_AC 5000)._waitUntil = 5000 + acRunning._acOffDelay ∧
      acRunning._acOffDelay = 300000 ∧
      (∀ t, 5000 ≤ t → t < 5000 + 300000 →
        isWaiting (turnOff acRunning THERMO_AC 5000) t = true) ∧
      isWaiting (turnOff acRunning THERMO_AC 5000) (5000 + 300000) = false :=
  ⟨by decide, by decide,
    (turnOff_AC_post acRunning 5000 (by decide) (by decide)).1,
    (turnOff_AC_post acRunning 5000 (by decide) (by decide)).2.1,
    (turnOff_AC_post acRunning 5000 (by decide) (by decide)).2.2.1,
    (turnOff_AC_post acRunning 5000 (by decide) (by decide)).2.2.2.1,
    by decide,
    (turnOff_AC_post acRunning 5000 (by decide) (by decide)).2.2.2.2 (by decide)⟩

end Thermostat

namespace Thermostat

/-! ## Switching on -/

/-- C6: `turnOn(THERMO_HEAT)` when not blocked.  For every state with Heat OFF
and every clock value `now ≥ waitUntil`: (a) if AC is ON, the call returns
false, leaves Heat OFF, turns AC and Fan OFF and sets `waitUntil` to
`(now + acOffDelay) mod 2^32`; (b) if AC is OFF, the call returns true, leaves
Heat ON with `lastOnTime[HEAT] = now`, leaves Fan OFF whether or not it was ON
before, and leaves `waitUntil` unchanged. -/
theorem turnOn_HEAT_unblocked (s : Thermostat) (now : Nat)
    (hoff : isOn s THERMO_HEAT = false) (hnow : s._waitUntil ≤ now) :
    (isOn s THERMO_AC = true →
        (turnOn s THERMO_HEAT now).1 = false ∧
        isOn (turnOn s THERMO_HEAT now).2 THERMO_HEAT = false ∧
        isOn (turnOn s THERMO_HEAT now).2 THERMO_AC = false ∧
        isOn (turnOn s THERMO_HEAT now).2 THERMO_FAN = false ∧
        (turnOn s THERMO_HEAT now).2._waitUntil = (now + s._acOffDelay) % 2 ^ 32) ∧
      (isOn s THERMO_AC = false →
        (turnOn s THERMO_HEAT now).1 = true ∧
        isOn (turnOn s THERMO_HEAT now).2 THERMO_HEAT = true ∧
        getLastOnTime (turnOn s THERMO_HEAT now).2 THERMO_HEAT = now ∧
        isOn (turnOn s THERMO_HEAT now).2 THERMO_FAN = false ∧
        (turnOn s THERMO_HEAT now).2._waitUntil = s._waitUntil) := by
  have hw : isWaiting s now = false := by simp [isWaiting, hnow]
  have h32 : ULONG_RANGE = 2 ^ 32 := rfl
  constructor
  · intro hac
    have hr : turnOn s THERMO_HEAT now = (false, turnOff s THERMO_AC now) := by
      unfold turnOn
      simp [hoff, hw, hac]
    unfold isOn at hoff hac
    rw [hr]
    simp [isOn, turnOff_typeOnOff, turnOff_waitUntil, hoff, hac, h32]
  · intro hac
    cases hfan : isOn s THERMO_FAN
    · have hr : turnOn s THERMO_HEAT now = (true, _setRelay s THERMO_HEAT true now) := by
        unfold turnOn
        simp [hoff, hw, hac, hfan]
      unfold isOn at hfan
      rw [hr]
      simp [isOn, getLastOnTime, hfan]
    · have hr : turnOn s THERMO_HEAT now =
          (true, _setRelay (turnOff s THERMO_FAN now) THERMO_HEAT true now) := by
        unfold turnOn
        simp [hoff, hw, hac, hfan]
      unfold isOn at hfan hac
      rw [hr]
      simp [isOn, getLastOnTime, turnOff_typeOnOff, turnOff_waitUntil, hfan, hac]

/-- C6 at concrete inputs: Heat requested at 5 s while AC runs, and while the
fan runs alone. -/
theorem turnOn_HEAT_unblocked_witness :
    (isOn acRunning THERMO_HEAT = false ∧ acRunning._waitUntil ≤ 5000 ∧
      isOn acRunning THERMO_AC = true ∧
      (turnOn acRunning THERMO_HEAT 5000).1 = false ∧
      isOn (turnOn acRunning THERMO_HEAT 5000).2 THERMO_HEAT = false ∧
      isOn (turnOn acRunning THERMO_HEAT 5000).2 THERMO_AC = false ∧
      isOn (turnOn acRunning THERMO_HEAT 5000).2 THERMO_FAN = false ∧
      (turnOn acRunning THERMO_HEAT 5000).2._waitUntil =
        (5000 + acRunning._acOffDelay) % 2 ^ 32) ∧
    (isOn fanAlone THERMO_HEAT = false ∧ fanAlone._waitUntil ≤ 5000 ∧
      isOn fanAlone THERMO_AC = false ∧ isOn fanAlone THERMO_FAN = true ∧
      (turnOn fanAlone THERMO_HEAT 5000).1 = true ∧
      isOn (turnOn fanAlone THERMO_HEAT 5000).2 THERMO_HEAT = true ∧
      getLastOnTime (turnOn fanAlone THERMO_HEAT 5000).2 THERMO_HEAT = 5000 ∧
      isOn (turnOn fanAlone THERMO_HEAT 5000).2 THERMO_FAN = false ∧
      (turnOn fanAlone THERMO_HEAT 5000).2._waitUntil = fanAlone._waitUntil) :=
  ⟨⟨by decide, by decide, by decide,
      (turnOn_HEAT_unblocked acRunning 5000 (by decide) (by decide)).1 (by decide)⟩,
    ⟨by decide, by decide, by decide, by decide,
      (turnOn_HEAT_unblocked fanAlone 5000 (by decide) (by decide)).2 (by decide)⟩⟩

/-- C7: `turnOn(THERMO_AC)` deferred success.  For every state with Heat ON and
AC OFF and every clock value `t1 ≥ waitUntil`, `turnOn(THERMO_AC)` at `t1`
returns false, leaves Heat OFF and AC OFF, and sets `waitUntil` to
`(t1 + heatOffDelay) mod 2^32`; a second `turnOn(THERMO_AC)` made next, at any
clock value `t2` not before the new `waitUntil`, returns true and leaves AC and
Fan ON with Heat OFF. -/
theorem turnOn_AC_deferred (s : Thermostat) (t1 : Nat)
    (hheat : isOn s THERMO_HEAT = true) (hac : isOn s THERMO_AC = false)
    (ht1 : s._waitUntil ≤ t1) :
    (turnOn s THERMO_AC t1).1 = false ∧
      isOn (turnOn s THERMO_AC t1).2 THERMO_HEAT = false ∧
      isOn (turnOn s THERMO_AC t1).2 THERMO_AC = false ∧
      (turnOn s THERMO_AC t1).2._waitUntil = (t1 + s._heatOffDelay) % 2 ^ 32 ∧
      ∀ t2, (turnOn s THERMO_AC t1).2._waitUntil ≤ t2 →
        (turnOn (turnOn s THERMO_AC t1).2 THERMO_AC t2).1 = true ∧
        isOn (turnOn (turnOn s THERMO_AC t1).2 THERMO_AC t2).2 THERMO_AC = true ∧
        isOn (turnOn (turnOn s THERMO_AC t1).2 THERMO_AC t2).2 THERMO_FAN = true ∧
        isOn (turnOn (turnOn s THERMO_AC t1).2 THERMO_AC t2).2 THERMO_HEAT = false := by
  have hw : isWaiting s t1 = false := by simp [isWaiting, ht1]
  have h32 : ULONG_RANGE = 2 ^ 32 := rfl
  have hr : turnOn s THERMO_AC t1 = (false, turnOff s THERMO_HEAT t1) := by
    unfold turnOn
    simp [hheat, hw, hac]
  rw [hr]
  unfold isOn at hheat hac
  have h1 : isOn (turnOff s THERMO_HEAT t1) THERMO_HEAT = false := by
    simp [isOn, turnOff_typeOnOff, hheat]
  have h2 : isOn (turnOff s THERMO_HEAT t1) THERMO_AC = false := by
    simp [isOn, turnOff_typeOnOff, hheat, hac]
  refine ⟨rfl, h1, h2, by simp [turnOff_waitUntil, hheat, h32], ?_⟩
  intro t2 ht2
  have hw2 : isWaiting (turnOff s THERMO_HEAT t1) t2 = false := by
    simp only [isWaiting, decide_eq_false_iff_not, not_lt]
    exact ht2
  have hr2 : turnOn (turnOff s THERMO_HEAT t1) THERMO_AC t2 =
      (true, _setRelay (_setRelay (turnOff s THERMO_HEAT t1) THERMO_AC true t2) THERMO_FAN true
        (millisAfterDelay t2 10)) := by
    unfold turnOn
    simp [h1, h2, hw2]
  rw [hr2]
  simp [isOn, turnOff_typeOnOff, hheat]

/-- C7 at a concrete input: AC requested at 5 s while Heat runs, and again at
125 s. -/
theorem turnOn_AC_deferred_witness :
    isOn heatRunning THERMO_HEAT = true ∧ isOn heatRunning THERMO_AC = false ∧
      heatRunning._waitUntil ≤ 5000 ∧
      (turnOn heatRunning THERMO_AC 5000).1 = false ∧
      (turnOn heatRunning THERMO_AC 5000).2._waitUntil = 125000 ∧
      (turnOn (turnOn heatRunning THERMO_AC 5000).2 THERMO_AC 125000).1 = true ∧
      isOn (turnOn (turnOn heatRunning THERMO_AC 5000).2 THERMO_AC 125000).2 THERMO_AC = true ∧
      isOn (turnOn (turnOn heatRunning THERMO_AC 5000).2 THERMO_AC 125000).2 THERMO_FAN = true ∧
      isOn (turnOn (turnOn heatRunning THERMO_AC 5000).2 THERMO_AC 125000).2 THERMO_HEAT =
        false :=
  ⟨by decide, by decide, by decide,
    (turnOn_AC_deferred heatRunning 5000 (by decide) (by decide) (by decide)).1,
    by decide,
    (turnOn_AC_deferred heatRunning 5000 (by decide) (by decide) (by decide)).2.2.2.2
      125000 (by decide)⟩

/-- C8: the result of `turnOn` agrees with the channel's resulting state.  For
every state, every channel `c` and every clock value, `isOn(c)` just after
`turnOn(c)` equals the value `turnOn(c)` returned: true after a call that
returned true, false after a call that returned false. -/
theorem turnOn_result_is_isOn (s : Thermostat) (c : Channel) (now : Nat) :
    isOn (turnOn s c now).2 c = (turnOn s c now).1 := by
  have hflags := turnOn_typeOnOff s c now
  unfold isOn
  rw [hflags]
  unfold turnOn isWaiting isOn
  by_cases hw : now < s._waitUntil <;>
    cases c <;> cases h1 : s._typeOnOff THERMO_HEAT <;>
      cases h2 : s._typeOnOff THERMO_AC <;> cases h3 : s._typeOnOff THERMO_FAN <;>
        simp [hw, h1, h2, h3]

/-- C9: `turnOn` is idempotent on a channel that is already ON.  For every
state, every channel `c` with `isOn(c)` true and every clock value, whether or
not a cool-down is running, `turnOn(c)` returns true and leaves the entire
controller state unchanged. -/
theorem turnOn_already_on (s : Thermostat) (c : Channel) (now : Nat)
    (h : isOn s c = true) : turnOn s c now = (true, s) := by
  unfold turnOn
  simp [h]

/-- C9 at concrete inputs: the fan requested again during a cool-down and after
it. -/
theorem turnOn_already_on_witness :
    isOn fanOnCoolingDown THERMO_FAN = true ∧
      isWaiting fanOnCoolingDown 3000 = true ∧
      turnOn fanOnCoolingDown THERMO_FAN 3000 = (true, fanOnCoolingDown) ∧
      isWaiting fanOnCoolingDown 200000 = false ∧
      turnOn fanOnCoolingDown THERMO_FAN 200000 = (true, fanOnCoolingDown) :=
  ⟨by decide, by decide, turnOn_already_on fanOnCoolingDown THERMO_FAN 3000 (by decide),
    by decide, turnOn_already_on fanOnCoolingDown THERMO_FAN 200000 (by decide)⟩

/-! ## Switching off -/

/-- C10: `turnOff(THERMO_FAN)` is redirected to `turnOff(THERMO_AC)` while AC is
ON.  For every reachable state with AC ON and every clock value `now`,
`turnOff(THERMO_FAN)` and `turnOff(THERMO_AC)` at `now` produce the same
controller state (flags, `lastOnTime` entries, pin levels and all the rest),
with `waitUntil = (now + acOffDelay) mod 2^32`. -/
theorem turnOff_FAN_while_AC_on (s : Thermostat) (hr : Reachable s) (now : Nat)
    (hac : isOn s THERMO_AC = true) :
    turnOff s THERMO_FAN now = turnOff s THERMO_AC now ∧
      (turnOff s THERMO_FAN now)._waitUntil = (now + s._acOffDelay) % 2 ^ 32 ∧
      (turnOff s THERMO_AC now)._waitUntil = (now + s._acOffDelay) % 2 ^ 32 := by
  have hfan : isOn s THERMO_FAN = true := hr.acHasFan hac
  have h32 : ULONG_RANGE = 2 ^ 32 := rfl
  have heq : turnOff s THERMO_FAN now = turnOff s THERMO_AC now := by
    rw [turnOff_THERMO_AC]
    unfold turnOff
    simp [hfan, hac]
  unfold isOn at hac
  refine ⟨heq, ?_, ?_⟩
  · rw [heq]; simp [turnOff_waitUntil, hac, h32]
  · simp [turnOff_waitUntil, hac, h32]

/-- C10 at a concrete input: the fan switched off at 5 s while AC runs. -/
theorem turnOff_FAN_while_AC_on_witness :
    Reachable acRunning ∧ isOn acRunning THERMO_AC = true ∧
      turnOff acRunning THERMO_FAN 5000 = turnOff acRunning THERMO_AC 5000 ∧
      (turnOff acRunning THERMO_FAN 5000)._waitUntil =
        (5000 + acRunning._acOffDelay) % 2 ^ 32 ∧
      (turnOff acRunning THERMO_AC 5000)._waitUntil =
        (5000 + acRunning._acOffDelay) % 2 ^ 32 :=
  ⟨fresh_reaches _, by decide,
    turnOff_FAN_while_AC_on acRunning (fresh_reaches _) 5000 (by decide)⟩

end Thermostat

namespace Thermostat

/-! ## The stand-alone fan, and switching everything off -/

/-- The `lastOnTime` entries after `turnOff`: none changes. -/
theorem turnOff_lastOnTime (s : Thermostat) (type : Channel) (now : Nat) :
    (turnOff s type now)._lastOnTime = s._lastOnTime := by
  unfold turnOff turnOffAC turnOffCaseAC
  cases type <;> simp only [] <;> split_ifs <;> simp

/-- After `turnOff(c)` the channel `c` is OFF. -/
theorem turnOff_isOn_self (s : Thermostat) (c : Channel) (now : Nat) :
    isOn (turnOff s c now) c = false := by
  unfold isOn
  rw [turnOff_typeOnOff]
  cases c <;> cases h1 : s._typeOnOff THERMO_HEAT <;> cases h2 : s._typeOnOff THERMO_AC <;>
    cases h3 : s._typeOnOff THERMO_FAN <;> simp [h1, h2, h3]

/-- C11: a stand-alone fan cycle starts no wait.  For every state with Fan OFF
and AC OFF and every clock value `now ≥ waitUntil`, `turnOn(THERMO_FAN)` returns
true and leaves Fan ON and AC OFF; and for every state with Fan ON and AC OFF,
`turnOff(THERMO_FAN)` leaves Fan OFF and leaves `waitUntil`, `isOn(HEAT)`,
`isOn(AC)` and every `lastOnTime` entry unchanged, so `isWaiting()` has the same
value before and after at the same clock value. -/
theorem fan_alone_cycle (s : Thermostat) (now : Nat) (hac : isOn s THERMO_AC = false) :
    (isOn s THERMO_FAN = false → s._waitUntil ≤ now →
        (turnOn s THERMO_FAN now).1 = true ∧
        isOn (turnOn s THERMO_FAN now).2 THERMO_FAN = true ∧
        isOn (turnOn s THERMO_FAN now).2 THERMO_AC = false) ∧
      (isOn s THERMO_FAN = true →
        isOn (turnOff s THERMO_FAN now) THERMO_FAN = false ∧
        (turnOff s THERMO_FAN now)._waitUntil = s._waitUntil ∧
        isOn (turnOff s THERMO_FAN now) THERMO_HEAT = isOn s THERMO_HEAT ∧
        isOn (turnOff s THERMO_FAN now) THERMO_AC = isOn s THERMO_AC ∧
        (∀ c, getLastOnTime (turnOff s THERMO_FAN now) c = getLastOnTime s c) ∧
        ∀ t, isWaiting (turnOff s THERMO_FAN now) t = isWaiting s t) := by
  constructor
  · intro hfan hnow
    have hw : isWaiting s now = false := by simp [isWaiting, hnow]
    have hr : turnOn s THERMO_FAN now = (true, _setRelay s THERMO_FAN true now) := by
      unfold turnOn
      simp [hfan, hw]
    unfold isOn at hac
    rw [hr]
    simp [isOn, hac]
  · intro hfan
    unfold isOn at hac hfan
    have hw : (turnOff s THERMO_FAN now)._waitUntil = s._waitUntil := by
      simp [turnOff_waitUntil, hfan, hac]
    refine ⟨turnOff_isOn_self s THERMO_FAN now, hw, ?_, ?_, ?_, ?_⟩
    · simp [isOn, turnOff_typeOnOff, hfan, hac]
    · simp [isOn, turnOff_typeOnOff, hfan, hac]
    · intro c
      simp [getLastOnTime, turnOff_lastOnTime]
    · intro t
      simp [isWaiting, hw]

/-- C11 at concrete inputs: the fan switched on at 1 s in the fresh controller
and switched off again at 5 s. -/
theorem fan_alone_cycle_witness :
    (isOn fresh THERMO_AC = false ∧ isOn fresh THERMO_FAN = false ∧ fresh._waitUntil ≤ 1000 ∧
      (turnOn fresh THERMO_FAN 1000).1 = true ∧
      isOn (turnOn fresh THERMO_FAN 1000).2 THERMO_FAN = true ∧
      isOn (turnOn fresh THERMO_FAN 1000).2 THERMO_AC = false) ∧
    (isOn fanAlone THERMO_AC = false ∧ isOn fanAlone THERMO_FAN = true ∧
      isOn (turnOff fanAlone THERMO_FAN 5000) THERMO_FAN = false ∧
      (turnOff fanAlone THERMO_FAN 5000)._waitUntil = fanAlone._waitUntil ∧
      isOn (turnOff fanAlone THERMO_FAN 5000) THERMO_HEAT = isOn fanAlone THERMO_HEAT ∧
      isOn (turnOff fanAlone THERMO_FAN 5000) THERMO_AC = isOn fanAlone THERMO_AC ∧
      (∀ c, getLastOnTime (turnOff fanAlone THERMO_FAN 5000) c = getLastOnTime fanAlone c) ∧
      ∀ t, isWaiting (turnOff fanAlone THERMO_FAN 5000) t = isWaiting fanAlone t) :=
  ⟨⟨by decide, by decide, by decide,
      (fan_alone_cycle fresh 1000 (by decide)).1 (by decide) (by decide)⟩,
    ⟨by decide, by decide, (fan_alone_cycle fanAlone 5000 (by decide)).2 (by decide)⟩⟩

/-- The deadline after `turnAllOff`. -/
theorem turnAllOff_waitUntil (s : Thermostat) (now : Nat) (hx : HeatAcExclusive s) :
    (turnAllOff s now)._waitUntil =
      if s._typeOnOff THERMO_HEAT = true then (now + s._heatOffDelay) % ULONG_RANGE
      else if s._typeOnOff THERMO_AC = true then (now + s._acOffDelay) % ULONG_RANGE
      else s._waitUntil := by
  unfold HeatAcExclusive isOn at hx
  unfold turnAllOff
  simp only [turnOff_waitUntil, turnOff_typeOnOff, turnOff_acOffDelay, turnOff_heatOffDelay]
  cases h1 : s._typeOnOff THERMO_HEAT <;> cases h2 : s._typeOnOff THERMO_AC <;>
    cases h3 : s._typeOnOff THERMO_FAN <;> simp_all

/-- C12: `turnAllOff` postcondition.  For every state and every clock value
`now`, after `turnAllOff()` Heat, AC and Fan are all OFF; and for every
reachable state, `waitUntil` afterwards is `(now + heatOffDelay) mod 2^32` if
Heat was ON before, `(now + acOffDelay) mod 2^32` if AC was ON before, and
unchanged if neither was ON before. -/
theorem turnAllOff_post (s : Thermostat) (now : Nat) :
    (∀ c, isOn (turnAllOff s now) c = false) ∧
      (Reachable s →
        (isOn s THERMO_HEAT = true →
          (turnAllOff s now)._waitUntil = (now + s._heatOffDelay) % 2 ^ 32) ∧
        (isOn s THERMO_AC = true →
          (turnAllOff s now)._waitUntil = (now + s._acOffDelay) % 2 ^ 32) ∧
        (isOn s THERMO_HEAT = false → isOn s THERMO_AC = false →
          (turnAllOff s now)._waitUntil = s._waitUntil)) := by
  constructor
  · intro c
    unfold turnAllOff isOn
    simp only [turnOff_typeOnOff]
    cases c <;> cases h1 : s._typeOnOff THERMO_HEAT <;> cases h2 : s._typeOnOff THERMO_AC <;>
      cases h3 : s._typeOnOff THERMO_FAN <;> simp [h1, h2, h3]
  · intro hr
    have hx := hr.heatAcExclusive
    have hw := turnAllOff_waitUntil s now hx
    have h32 : ULONG_RANGE = 2 ^ 32 := rfl
    unfold HeatAcExclusive at hx
    unfold isOn at *
    refine ⟨fun h => ?_, fun h => ?_, fun h1 h2 => ?_⟩
    · rw [hw, h32]; simp [h]
    · have hh : s._typeOnOff THERMO_HEAT = false := by
        cases hh : s._typeOnOff THERMO_HEAT
        · rfl
        · exact absurd ⟨hh, h⟩ hx
      rw [hw, h32]; simp [h, hh]
    · rw [hw]; simp [h1, h2]

/-- C12 at concrete inputs: everything switched off at 5 s while AC runs, while
Heat runs, and while only the fan runs. -/
theorem turnAllOff_post_witness :
    (∀ c, isOn (turnAllOff acRunning 5000) c = false) ∧
      Reachable acRunning ∧ isOn acRunning THERMO_AC = true ∧
      (turnAllOff acRunning 5000)._waitUntil = (5000 + acRunning._acOffDelay) % 2 ^ 32 ∧
      Reachable heatRunning ∧ isOn heatRunning THERMO_HEAT = true ∧
      (turnAllOff heatRunning 5000)._waitUntil = (5000 + heatRunning._heatOffDelay) % 2 ^ 32 ∧
      Reachable fanAlone ∧ isOn fanAlone THERMO_FAN = true ∧
      (turnAllOff fanAlone 5000)._waitUntil = fanAlone._waitUntil :=
  ⟨(turnAllOff_post acRunning 5000).1, fresh_reaches _, by decide,
    ((turnAllOff_post acRunning 5000).2 (fresh_reaches _)).2.1 (by decide),
    fresh_reaches _, by decide,
    ((turnAllOff_post heatRunning 5000).2 (fresh_reaches _)).1 (by decide),
    fresh_reaches _, by decide,
    ((turnAllOff_post fanAlone 5000).2 (fresh_reaches _)).2.2 (by decide) (by decide)⟩

/-! ## The current action -/

/-- C13: current-action priority.  For every state and every clock value `now`,
`getCurrentAction()` returns `ACTION_WAIT` (4) if `now < waitUntil`, whatever the
channel flags; otherwise `ACTION_HEAT` (1) if Heat is ON; otherwise `ACTION_AC`
(2) if AC is ON; otherwise `ACTION_FAN` (3) if Fan is ON; otherwise `ACTION_OFF`
(0); and `isAction(a)` is true for exactly one of the five action values,
the one `getCurrentAction()` returns. -/
theorem getCurrentAction_priority (s : Thermostat) (now : Nat) :
    getCurrentAction s now =
        (if now < s._waitUntil then 4
         else if isOn s THERMO_HEAT = true then 1
         else if isOn s THERMO_AC = true then 2
         else if isOn s THERMO_FAN = true then 3
         else 0) ∧
      (getCurrentAction s now = ACTION_WAIT ∨ getCurrentAction s now = ACTION_HEAT ∨
        getCurrentAction s now = ACTION_AC ∨ getCurrentAction s now = ACTION_FAN ∨
        getCurrentAction s now = ACTION_OFF) ∧
      (∀ a : Int, isAction s a now = true ↔ a = getCurrentAction s now) ∧
      (ACTION_OFF = 0 ∧ ACTION_HEAT = 1 ∧ ACTION_AC = 2 ∧ ACTION_FAN = 3 ∧ ACTION_WAIT = 4) := by
  refine ⟨?_, ?_, ?_, rfl, rfl, rfl, rfl, rfl⟩
  · unfold getCurrentAction isWaiting ACTION_WAIT ACTION_HEAT ACTION_AC ACTION_FAN ACTION_OFF
    by_cases hw : now < s._waitUntil <;>
      cases h1 : isOn s THERMO_HEAT <;> cases h2 : isOn s THERMO_AC <;>
        cases h3 : isOn s THERMO_FAN <;> simp [hw]
  · unfold getCurrentAction
    split_ifs <;> simp
  · intro a
    unfold isAction
    simp only [decide_eq_true_eq]
    exact eq_comm

end Thermostat

namespace Thermostat

/-! ## Start-up, `lastOnTime`, and switching off twice -/

/-- C14, the code at the failing input.  The constructor leaves the member
`_waitUntil` as it finds it, so the object built in zeroed static storage has
the default delays and `_waitUntil = 0`: `isWaiting()` is false at 1 s, well
before 60 s, and `turnOn(THERMO_HEAT)` at 1 s returns true and switches Heat
on. -/
theorem startup_wait_missing :
    (∀ mem : Thermostat, (construct mem)._waitUntil = mem._waitUntil) ∧
      fresh._heatOffDelay = 120000 ∧ fresh._acOffDelay = 300000 ∧
      fresh._waitUntil = 0 ∧
      isWaiting fresh 1000 = false ∧
      (turnOn fresh THERMO_HEAT 1000).1 = true ∧
      isOn (turnOn fresh THERMO_HEAT 1000).2 THERMO_HEAT = true :=
  ⟨fun _ => rfl, by decide, by decide, by decide, by decide, by decide, by decide⟩

/-- The `lastOnTime` entries after `turnOn`. -/
theorem turnOn_lastOnTime (s : Thermostat) (type : Channel) (now : Nat) :
    (turnOn s type now).2._lastOnTime =
      if s._typeOnOff type = true then s._lastOnTime
      else if now < s._waitUntil then s._lastOnTime
      else
        match type with
        | THERMO_HEAT =>
          if s._typeOnOff THERMO_AC = true then s._lastOnTime
          else Function.update s._lastOnTime THERMO_HEAT now
        | THERMO_AC =>
          if s._typeOnOff THERMO_HEAT = true then s._lastOnTime
          else
            Function.update (Function.update s._lastOnTime THERMO_AC now) THERMO_FAN
              (millisAfterDelay now 10)
        | THERMO_FAN => Function.update s._lastOnTime THERMO_FAN now := by
  unfold turnOn isWaiting isOn
  by_cases h : s._typeOnOff type = true
  · simp [h]
  · by_cases hw : now < s._waitUntil
    · simp [h, hw]
    · simp only [h, hw, if_false, decide_False, Bool.false_eq_true]
      cases type
      · by_cases hac : s._typeOnOff THERMO_AC = true
        · simp [hac, turnOff_lastOnTime]
        · by_cases hfan : s._typeOnOff THERMO_FAN = true
          · simp [hac, hfan, turnOff_lastOnTime]
          · simp [hac, hfan]
      · by_cases hh : s._typeOnOff THERMO_HEAT = true
        · simp [hh, turnOff_lastOnTime]
        · simp [hh]
      · simp

/-- C15 as stated fails: `turnOn(THERMO_AC)` at 5 s over a fan that has been ON
since 1 s stamps `lastOnTime[FAN]` again, although the fan was ON before the
call. -/
theorem lastOnTime_transition_only_counterexample :
    Reachable fanAlone ∧
      isOn fanAlone THERMO_FAN = true ∧
      getLastOnTime fanAlone THERMO_FAN = 1000 ∧
      getLastOnTime (exec fanAlone (Call.turnOn THERMO_AC) 5000) THERMO_FAN = 5010 ∧
      getLastOnTime (exec fanAlone (Call.turnOn THERMO_AC) 5000) THERMO_FAN ≠
        getLastOnTime fanAlone THERMO_FAN :=
  ⟨fresh_reaches _, by decide, by decide, by decide, by decide⟩

/-- C15, amended: for every state, every operation among `turnOn(c')`,
`turnOff(c')` and `turnAllOff()`, every clock value and every channel `c`, if
`getLastOnTime(c)` after the operation differs from before, then `isOn(c)` is
true after the operation, and `isOn(c)` was false before it unless `c` is
`THERMO_FAN` and the operation is a `turnOn(THERMO_AC)` that switched AC from
OFF to ON. -/
theorem lastOnTime_changes_only_when_switched_on (s : Thermostat) (call : Call) (now : Nat)
    (c : Channel) (h : getLastOnTime (exec s call now) c ≠ getLastOnTime s c) :
    isOn (exec s call now) c = true ∧
      (isOn s c = false ∨
        (c = THERMO_FAN ∧ call = Call.turnOn THERMO_AC ∧ isOn s THERMO_AC = false ∧
          isOn (exec s call now) THERMO_AC = true)) := by
  cases call with
  | turnOff type =>
    exact absurd (by simp [exec, getLastOnTime, turnOff_lastOnTime]) h
  | turnAllOff =>
    exact absurd (by simp [exec, turnAllOff, getLastOnTime, turnOff_lastOnTime]) h
  | turnOn type =>
    simp only [exec, getLastOnTime, isOn] at h ⊢
    rw [turnOn_lastOnTime] at h
    rw [turnOn_typeOnOff]
    by_cases hw : now < s._waitUntil <;> simp only [hw, if_true, if_false] at h ⊢ <;>
      cases type <;> cases c <;> cases h1 : s._typeOnOff THERMO_HEAT <;>
        cases h2 : s._typeOnOff THERMO_AC <;> cases h3 : s._typeOnOff THERMO_FAN <;>
          simp_all

/-- C15 amended, at a concrete input: Heat switched on at 1 s in the fresh
controller. -/
theorem lastOnTime_changes_only_when_switched_on_witness :
    getLastOnTime (exec fresh (Call.turnOn THERMO_HEAT) 1000) THERMO_HEAT ≠
        getLastOnTime fresh THERMO_HEAT ∧
      isOn (exec fresh (Call.turnOn THERMO_HEAT) 1000) THERMO_HEAT = true ∧
      (isOn fresh THERMO_HEAT = false ∨
        (THERMO_HEAT = THERMO_FAN ∧ Call.turnOn THERMO_HEAT = Call.turnOn THERMO_AC ∧
          isOn fresh THERMO_AC = false ∧
          isOn (exec fresh (Call.turnOn THERMO_HEAT) 1000) THERMO_AC = true)) :=
  ⟨by decide,
    lastOnTime_changes_only_when_switched_on fresh (Call.turnOn THERMO_HEAT) 1000 THERMO_HEAT
      (by decide)⟩

/-- C16: `turnOff` on an OFF channel is a no-op.  For every state, every channel
`c` with `isOn(c)` false and every clock value, `turnOff(c)` leaves the entire
controller state unchanged; consequently, from any state, `turnOff(c)` followed
by `turnOff(c)` yields the state of the single `turnOff(c)`: the same channel
flags, and the wait timer is not restarted. -/
theorem turnOff_off_is_noop (s : Thermostat) (c : Channel) (now t2 : Nat) :
    (isOn s c = false → turnOff s c now = s) ∧
      turnOff (turnOff s c now) c t2 = turnOff s c now ∧
      (∀ d, isOn (turnOff (turnOff s c now) c t2) d = isOn (turnOff s c now) d) ∧
      (turnOff (turnOff s c now) c t2)._waitUntil = (turnOff s c now)._waitUntil := by
  have hnoop : ∀ (u : Thermostat) (t : Nat), isOn u c = false → turnOff u c t = u := by
    intro u t hu
    unfold turnOff
    simp [hu]
  have htwice : turnOff (turnOff s c now) c t2 = turnOff s c now :=
    hnoop _ t2 (turnOff_isOn_self s c now)
  exact ⟨hnoop s now, htwice, fun d => by rw [htwice], by rw [htwice]⟩

/-- C16 at a concrete input: Heat switched off at 5 s and again at 6 s while the
fan keeps running; the deadline stays at 125 s. -/
theorem turnOff_off_is_noop_witness :
    isOn fanOnCoolingDown THERMO_HEAT = false ∧
      turnOff fanOnCoolingDown THERMO_HEAT 5000 = fanOnCoolingDown ∧
      isOn heatRunning THERMO_HEAT = true ∧
      turnOff (turnOff heatRunning THERMO_HEAT 5000) THERMO_HEAT 6000 =
        turnOff heatRunning THERMO_HEAT 5000 ∧
      (turnOff (turnOff heatRunning THERMO_HEAT 5000) THERMO_HEAT 6000)._waitUntil = 125000 :=
  ⟨by decide, (turnOff_off_is_noop fanOnCoolingDown THERMO_HEAT 5000 0).1 (by decide),
    by decide, (turnOff_off_is_noop heatRunning THERMO_HEAT 5000 6000).2.1, by decide⟩

end Thermostat

namespace Thermostat

/-! ## Seconds left -/

/-- The unsigned 32-bit difference in `waitingSecLeft`, on natural numbers. -/
theorem waitingSecLeft_eq (s : Thermostat) (now : Nat)
    (hw : s._waitUntil < 2 ^ 32) (hnow : now < 2 ^ 32) :
    waitingSecLeft s now = ((s._waitUntil + 2 ^ 32 - now) % 2 ^ 32) / 1000 := by
  unfold waitingSecLeft ULONG_RANGE
  have h : (((s._waitUntil : Int) - (now : Int)) % ((2 ^ 32 : Nat) : Int)).toNat =
      (s._waitUntil + 2 ^ 32 - now) % 2 ^ 32 := by
    norm_num
    omega
  rw [h]

/-- C17 as stated fails: in the fresh controller the deadline 0 has strictly
passed at the clock value `2^32 - 1`, the result is
`floor((2^32 - (now - waitUntil)) / 1000)` as stated, and that is zero, not a
huge value; likewise, at that clock value the deadline 122 s of a cool-down
long over gives 122. -/
theorem waitingSecLeft_huge_counterexample :
    fresh._waitUntil < 4294967295 ∧
      waitingSecLeft fresh 4294967295 = (2 ^ 32 - (4294967295 - fresh._waitUntil)) / 1000 ∧
      waitingSecLeft fresh 4294967295 = 0 ∧
      fanOnCoolingDown._waitUntil = 122000 ∧
      waitingSecLeft fanOnCoolingDown 4294967295 = 122 :=
  ⟨by decide, by decide, by decide, by decide, by decide⟩

/-- C17, amended: for every state (with `waitUntil` an `unsigned long`) and
every clock value `now < 2^32`, `waitingSecLeft()` is
`((waitUntil - now) mod 2^32) div 1000`; while `isWaiting()` is true
(`now < waitUntil`) it is `floor((waitUntil - now) / 1000)`; when the deadline
has strictly passed (`waitUntil < now`) it is
`floor((2^32 - (now - waitUntil)) / 1000)`, which is not zero as long as the
deadline passed at most `2^32 - 1000` ms ago, and at least 2147483 as long as it
passed at most `2^31` ms ago. -/
theorem waitingSecLeft_value (s : Thermostat) (now : Nat)
    (hw : s._waitUntil < 2 ^ 32) (hnow : now < 2 ^ 32) :
    waitingSecLeft s now =
        ((((s._waitUntil : Int) - (now : Int)) % (2 ^ 32 : Int)).toNat) / 1000 ∧
      (now < s._waitUntil →
        isWaiting s now = true ∧ waitingSecLeft s now = (s._waitUntil - now) / 1000) ∧
      (s._waitUntil < now →
        isWaiting s now = false ∧
        waitingSecLeft s now = (2 ^ 32 - (now - s._waitUntil)) / 1000 ∧
        (now - s._waitUntil ≤ 2 ^ 32 - 1000 → 1 ≤ waitingSecLeft s now) ∧
        (now - s._waitUntil ≤ 2 ^ 31 → 2147483 ≤ waitingSecLeft s now)) := by
  have heq := waitingSecLeft_eq s now hw hnow
  refine ⟨?_, ?_, ?_⟩
  · unfold waitingSecLeft ULONG_RANGE
    norm_num
  · intro hlt
    refine ⟨by simp [isWaiting, hlt], ?_⟩
    rw [heq]
    have h : (s._waitUntil + 2 ^ 32 - now) % 2 ^ 32 = s._waitUntil - now := by omega
    rw [h]
  · intro hlt
    have h : (s._waitUntil + 2 ^ 32 - now) % 2 ^ 32 = 2 ^ 32 - (now - s._waitUntil) := by omega
    rw [heq, h]
    refine ⟨by simp [isWaiting, Nat.le_of_lt hlt], rfl, ?_, ?_⟩
    · intro hd
      exact (Nat.le_div_iff_mul_le (by norm_num)).mpr (by omega)
    · intro hd
      exact (Nat.le_div_iff_mul_le (by norm_num)).mpr (by omega)

/-- C17 amended, at concrete inputs: 120 s into the 300 s cool-down that
started at 5 s, and 1 s after its deadline. -/
theorem waitingSecLeft_value_witness :
    (turnOff acRunning THERMO_AC 5000)._waitUntil = 305000 ∧
      waitingSecLeft (turnOff acRunning THERMO_AC 5000) 125000 = 180 ∧
      waitingSecLeft (turnOff acRunning THERMO_AC 5000) 306000 = 4294966 ∧
      1 ≤ waitingSecLeft (turnOff acRunning THERMO_AC 5000) 306000 :=
  ⟨by decide, by decide, by decide,
    ((waitingSecLeft_value (turnOff acRunning THERMO_AC 5000) 306000 (by decide)
      (by decide)).2.2 (by decide)).2.2.1 (by decide)⟩

end Thermostat

namespace Thermostat

/-! ## Pins -/

@[simp] theorem _setRelay_pinLevel (s : Thermostat) (t : Channel) (b : Bool) (now : Nat) :
    (_setRelay s t b now).pinLevel =
      Function.update s.pinLevel (s._relayPins t) (if b then LOW else HIGH) := by
  unfold _setRelay digitalWrite serialPrintln serialPrint
  cases b <;> cases s._debug <;> rfl

@[simp] theorem _setWait_pinLevel (s : Thermostat) (time now : Nat) :
    (_setWait s time now).pinLevel = s.pinLevel := by
  unfold _setWait serialPrintln serialPrint
  cases s._debug <;> rfl

@[simp] theorem _setWait_relayPins (s : Thermostat) (time now : Nat) :
    (_setWait s time now)._relayPins = s._relayPins := by
  unfold _setWait serialPrintln serialPrint
  cases s._debug <;> rfl

/-- What `_setRelay` and `_setWait` preserve, `turnOff` preserves. -/
theorem turnOff_preserves (P : Thermostat → Prop)
    (hrelay : ∀ u t b n, P u → P (_setRelay u t b n))
    (hwait : ∀ u d n, P u → P (_setWait u d n))
    (s : Thermostat) (type : Channel) (now : Nat) (h : P s) : P (turnOff s type now) := by
  unfold turnOff turnOffAC turnOffCaseAC
  cases type <;> simp only [] <;> split_ifs <;>
    first
      | exact h
      | exact hrelay _ _ _ _ h
      | exact hwait _ _ _ (hrelay _ _ _ _ h)
      | exact hwait _ _ _ (hrelay _ _ _ _ (hrelay _ _ _ _ h))

/-- What `_setRelay` and `_setWait` preserve, `turnOn` preserves. -/
theorem turnOn_preserves (P : Thermostat → Prop)
    (hrelay : ∀ u t b n, P u → P (_setRelay u t b n))
    (hwait : ∀ u d n, P u → P (_setWait u d n))
    (s : Thermostat) (type : Channel) (now : Nat) (h : P s) : P (turnOn s type now).2 := by
  have hoff := turnOff_preserves P hrelay hwait
  unfold turnOn
  cases type <;> simp only [] <;> split_ifs <;>
    first
      | exact h
      | exact hoff _ _ _ h
      | exact hrelay _ _ _ _ h
      | exact hrelay _ _ _ _ (hoff _ _ _ h)
      | exact hrelay _ _ _ _ (hrelay _ _ _ _ h)

/-- What `_setRelay` and `_setWait` preserve, every call preserves. -/
theorem exec_preserves (P : Thermostat → Prop)
    (hrelay : ∀ u t b n, P u → P (_setRelay u t b n))
    (hwait : ∀ u d n, P u → P (_setWait u d n))
    (s : Thermostat) (call : Call) (now : Nat) (h : P s) : P (exec s call now) := by
  have hoff := turnOff_preserves P hrelay hwait
  cases call with
  | turnOn type => exact turnOn_preserves P hrelay hwait s type now h
  | turnOff type => exact hoff s type now h
  | turnAllOff => exact hoff _ _ _ (hoff _ _ _ (hoff _ _ _ h))

theorem _setRelay_PinsMirror (s : Thermostat) (t : Channel) (b : Bool) (now : Nat)
    (h : PinsMirror s) : PinsMirror (_setRelay s t b now) := by
  obtain ⟨⟨h1, h2, h3⟩, hm⟩ := h
  refine ⟨⟨by simpa using h1, by simpa using h2, by simpa using h3⟩, ?_⟩
  intro c
  have hc := hm c
  unfold isOn at hc ⊢
  simp only [_setRelay_pinLevel, _setRelay_relayPins, _setRelay_typeOnOff]
  unfold RELAY_HEAT_PIN at h1
  unfold RELAY_AC_PIN at h2
  unfold RELAY_FAN_PIN at h3
  cases c <;> cases t <;> simp_all [Function.update]

theorem _setWait_PinsMirror (s : Thermostat) (time now : Nat)
    (h : PinsMirror s) : PinsMirror (_setWait s time now) := by
  obtain ⟨⟨h1, h2, h3⟩, hm⟩ := h
  refine ⟨⟨by simpa using h1, by simpa using h2, by simpa using h3⟩, ?_⟩
  intro c
  simpa [isOn] using hm c

theorem construct_PinsMirror (mem : Thermostat)
    (hoff : ∀ c, isOn (construct mem) c = false) : PinsMirror (construct mem) := by
  refine ⟨⟨rfl, rfl, rfl⟩, ?_⟩
  intro c
  rw [hoff c]
  cases c <;> simp [construct, digitalWrite, pinModeOutput, Function.update,
    RELAY_HEAT_PIN, RELAY_AC_PIN, RELAY_FAN_PIN]

theorem Reachable.pinsMirror {s : Thermostat} (h : Reachable s) : PinsMirror s := by
  obtain ⟨mem, calls, hoff, rfl⟩ := h
  exact run_preserves PinsMirror
    (exec_preserves PinsMirror _setRelay_PinsMirror _setWait_PinsMirror) _ calls
    (construct_PinsMirror mem hoff)

/-- C18: the active-low pins mirror the logical state.  In every state
reachable from construction (which writes HIGH to pins 7, 8 and 6 for Heat, AC
and Fan) by any finite sequence of `turnOn`, `turnOff` and `turnAllOff` calls,
the pins of Heat, AC and Fan are still 7, 8 and 6, and for every channel `c`
the level last written to `c`'s pin is LOW if and only if `isOn(c)` is true,
and HIGH if and only if `isOn(c)` is false. -/
theorem pins_mirror_channels (s : Thermostat) (hr : Reachable s) :
    (s._relayPins THERMO_HEAT = 7 ∧ s._relayPins THERMO_AC = 8 ∧ s._relayPins THERMO_FAN = 6) ∧
      ∀ c, (s.pinLevel (s._relayPins c) = LOW ↔ isOn s c = true) ∧
        (s.pinLevel (s._relayPins c) = HIGH ↔ isOn s c = false) := by
  obtain ⟨hp, hm⟩ := hr.pinsMirror
  refine ⟨hp, ?_⟩
  intro c
  rw [hm c]
  cases isOn s c <;> simp

/-- C18 at a concrete run: after AC is switched on at 1 s, pins 8 and 6 carry
LOW and pin 7 carries HIGH. -/
theorem pins_mirror_channels_witness :
    Reachable acRunning ∧
      acRunning.pinLevel 8 = LOW ∧ acRunning.pinLevel 6 = LOW ∧ acRunning.pinLevel 7 = HIGH ∧
      (acRunning._relayPins THERMO_HEAT = 7 ∧ acRunning._relayPins THERMO_AC = 8 ∧
        acRunning._relayPins THERMO_FAN = 6) ∧
      ∀ c, (acRunning.pinLevel (acRunning._relayPins c) = LOW ↔ isOn acRunning c = true) ∧
        (acRunning.pinLevel (acRunning._relayPins c) = HIGH ↔ isOn acRunning c = false) :=
  ⟨fresh_reaches _, by decide, by decide, by decide,
    pins_mirror_channels acRunning (fresh_reaches _)⟩

end Thermostat

namespace Thermostat

/-! ## Running channels and the cool-down window -/

/-- The deadline after `turnOn`. -/
theorem turnOn_waitUntil (s : Thermostat) (type : Channel) (now : Nat) :
    (turnOn s type now).2._waitUntil =
      if s._typeOnOff type = true then s._waitUntil
      else if now < s._waitUntil then s._waitUntil
      else
        match type with
        | THERMO_HEAT =>
          if s._typeOnOff THERMO_AC = true then (now + s._acOffDelay) % ULONG_RANGE
          else s._waitUntil
        | THERMO_AC =>
          if s._typeOnOff THERMO_HEAT = true then (now + s._heatOffDelay) % ULONG_RANGE
          else s._waitUntil
        | THERMO_FAN => s._waitUntil := by
  unfold turnOn isWaiting isOn
  by_cases h : s._typeOnOff type = true
  · simp [h]
  · by_cases hw : now < s._waitUntil
    · simp [h, hw]
    · simp only [h, hw, if_false, decide_False, Bool.false_eq_true]
      cases type
      · by_cases hac : s._typeOnOff THERMO_AC = true
        · simp [hac, turnOff_waitUntil]
        · by_cases hfan : s._typeOnOff THERMO_FAN = true
          · simp [hac, hfan, turnOff_waitUntil]
          · simp [hac, hfan]
      · by_cases hh : s._typeOnOff THERMO_HEAT = true
        · simp [hh, turnOff_waitUntil]
        · simp [hh]
      · simp

theorem turnOff_OnAfterWait (s : Thermostat) (type : Channel) (now : Nat)
    (h : OnAfterWait s) : OnAfterWait (turnOff s type now) := by
  unfold OnAfterWait HeatAcExclusive isOn at *
  rw [turnOff_typeOnOff, turnOff_waitUntil, turnOff_lastOnTime]
  cases type <;> cases h1 : s._typeOnOff THERMO_HEAT <;> cases h2 : s._typeOnOff THERMO_AC <;>
    cases h3 : s._typeOnOff THERMO_FAN <;> simp_all

theorem turnOn_OnAfterWait (s : Thermostat) (type : Channel) (now : Nat)
    (h : OnAfterWait s) : OnAfterWait (turnOn s type now).2 := by
  unfold OnAfterWait HeatAcExclusive isOn at *
  rw [turnOn_typeOnOff, turnOn_waitUntil, turnOn_lastOnTime]
  by_cases hw : now < s._waitUntil <;> simp only [hw, if_true, if_false] <;>
    cases type <;> cases h1 : s._typeOnOff THERMO_HEAT <;>
      cases h2 : s._typeOnOff THERMO_AC <;> cases h3 : s._typeOnOff THERMO_FAN <;>
        simp_all

theorem exec_OnAfterWait (s : Thermostat) (call : Call) (now : Nat)
    (h : OnAfterWait s) : OnAfterWait (exec s call now) := by
  cases call with
  | turnOn type => exact turnOn_OnAfterWait s type now h
  | turnOff type => exact turnOff_OnAfterWait s type now h
  | turnAllOff =>
    exact turnOff_OnAfterWait _ _ _ (turnOff_OnAfterWait _ _ _ (turnOff_OnAfterWait _ _ _ h))

theorem Reachable.onAfterWait {s : Thermostat} (h : Reachable s) : OnAfterWait s := by
  obtain ⟨mem, calls, hoff, rfl⟩ := h
  refine run_preserves OnAfterWait exec_OnAfterWait _ calls ⟨?_, ?_, ?_⟩
  · intro hc
    rw [hoff] at hc
    exact Bool.noConfusion hc.1
  · intro hc
    rw [hoff] at hc
    exact Bool.noConfusion hc
  · intro hc
    rw [hoff] at hc
    exact Bool.noConfusion hc

/-- C19: Heat and AC never run inside a cool-down window.  In every state
reachable from the post-construction state by any finite sequence of `turnOn`,
`turnOff` and `turnAllOff` calls, if Heat is ON then
`waitUntil ≤ lastOnTime[HEAT]`, and if AC is ON then
`waitUntil ≤ lastOnTime[AC]`; hence at any clock value `t` not before that
`lastOnTime`, `isWaiting()` is false while Heat or AC is ON, and
`getCurrentAction()` reports `ACTION_WAIT` at such a `t` only while Heat and AC
are both OFF. -/
theorem running_outside_cooldown (s : Thermostat) (hr : Reachable s) :
    (isOn s THERMO_HEAT = true → s._waitUntil ≤ getLastOnTime s THERMO_HEAT) ∧
      (isOn s THERMO_AC = true → s._waitUntil ≤ getLastOnTime s THERMO_AC) ∧
      ∀ t,
        (isOn s THERMO_HEAT = true → getLastOnTime s THERMO_HEAT ≤ t →
          isWaiting s t = false) ∧
        (isOn s THERMO_AC = true → getLastOnTime s THERMO_AC ≤ t →
          isWaiting s t = false) ∧
        ((isOn s THERMO_HEAT = true → getLastOnTime s THERMO_HEAT ≤ t) →
          (isOn s THERMO_AC = true → getLastOnTime s THERMO_AC ≤ t) →
          getCurrentAction s t = ACTION_WAIT →
          isOn s THERMO_HEAT = false ∧ isOn s THERMO_AC = false) := by
  obtain ⟨-, hheat, hac⟩ := hr.onAfterWait
  have hnw : ∀ t c, s._waitUntil ≤ s._lastOnTime c → s._lastOnTime c ≤ t →
      isWaiting s t = false := by
    intro t c h1 h2
    simp only [isWaiting, decide_eq_false_iff_not, not_lt, ge_iff_le, gt_iff_lt]
    exact le_trans h1 h2
  refine ⟨hheat, hac, ?_⟩
  intro t
  refine ⟨fun h1 h2 => hnw t _ (hheat h1) h2, fun h1 h2 => hnw t _ (hac h1) h2, ?_⟩
  intro hth hta hact
  have hwait : isWaiting s t = true := by
    unfold getCurrentAction ACTION_WAIT ACTION_HEAT ACTION_AC ACTION_FAN ACTION_OFF at hact
    cases hw : isWaiting s t
    · rw [hw] at hact
      simp only [Bool.false_eq_true, if_false] at hact
      split_ifs at hact <;> simp at hact
    · rfl
  constructor
  · cases h1 : isOn s THERMO_HEAT
    · rfl
    · have := hnw t _ (hheat h1) (hth h1)
      rw [hwait] at this
      exact Bool.noConfusion this
  · cases h1 : isOn s THERMO_AC
    · rfl
    · have := hnw t _ (hac h1) (hta h1)
      rw [hwait] at this
      exact Bool.noConfusion this

/-- C19 at a concrete run: Heat switched off at 2 s, AC requested during the
cool-down and switched on at 130 s. -/
theorem running_outside_cooldown_witness :
    Reachable (run fresh
        [(Call.turnOn THERMO_HEAT, 1000), (Call.turnOff THERMO_HEAT, 2000),
         (Call.turnOn THERMO_AC, 3000), (Call.turnOn THERMO_AC, 130000)]) ∧
      isOn (run fresh
        [(Call.turnOn THERMO_HEAT, 1000), (Call.turnOff THERMO_HEAT, 2000),
         (Call.turnOn THERMO_AC, 3000), (Call.turnOn THERMO_AC, 130000)]) THERMO_AC = true ∧
      (run fresh
        [(Call.turnOn THERMO_HEAT, 1000), (Call.turnOff THERMO_HEAT, 2000),
         (Call.turnOn THERMO_AC, 3000), (Call.turnOn THERMO_AC, 130000)])._waitUntil ≤
        getLastOnTime (run fresh
          [(Call.turnOn THERMO_HEAT, 1000), (Call.turnOff THERMO_HEAT, 2000),
           (Call.turnOn THERMO_AC, 3000), (Call.turnOn THERMO_AC, 130000)]) THERMO_AC :=
  ⟨fresh_reaches _, by decide,
    (running_outside_cooldown _ (fresh_reaches _)).2.1 (by decide)⟩

/-! ## Clock wrap-around -/

/-- C20: clock wrap-around defeats the cool-down.  The deadline is
`(now + delay) mod 2^32`, so for every clock value `now` with
`2^32 - 300000 ≤ now < 2^32` and every state with AC ON, Heat OFF and
`acOffDelay = 300000`, after `turnOff(THERMO_AC)` at `now` the stored
`waitUntil` is `now + 300000 - 2^32`, less than `now`; `isWaiting()` at `now`
is false; and `turnOn(THERMO_AC)` made next at `now` returns true and switches
AC back ON. -/
theorem wraparound_defeats_cooldown (s : Thermostat) (now : Nat)
    (hac : isOn s THERMO_AC = true) (hheat : isOn s THERMO_HEAT = false)
    (hd : s._acOffDelay = 300000) (hlo : 2 ^ 32 - 300000 ≤ now) (hhi : now < 2 ^ 32) :
    (turnOff s THERMO_AC now)._waitUntil = (now + 300000) % 2 ^ 32 ∧
      (turnOff s THERMO_AC now)._waitUntil = now + 300000 - 2 ^ 32 ∧
      (turnOff s THERMO_AC now)._waitUntil < now ∧
      isWaiting (turnOff s THERMO_AC now) now = false ∧
      isOn (turnOff s THERMO_AC now) THERMO_AC = false ∧
      (turnOn (turnOff s THERMO_AC now) THERMO_AC now).1 = true ∧
      isOn (turnOn (turnOff s THERMO_AC now) THERMO_AC now).2 THERMO_AC = true := by
  have h32 : ULONG_RANGE = 2 ^ 32 := rfl
  have hoffAC : isOn (turnOff s THERMO_AC now) THERMO_AC = false := turnOff_isOn_self s _ now
  unfold isOn at hac hheat
  have hw : (turnOff s THERMO_AC now)._waitUntil = (now + 300000) % 2 ^ 32 := by
    simp [turnOff_waitUntil, hac, hd, h32]
  have hw2 : (now + 300000) % 2 ^ 32 = now + 300000 - 2 ^ 32 := by omega
  have hlt : (turnOff s THERMO_AC now)._waitUntil < now := by
    rw [hw, hw2]; omega
  have hnw : isWaiting (turnOff s THERMO_AC now) now = false := by
    simp only [isWaiting, decide_eq_false_iff_not, not_lt, ge_iff_le, gt_iff_lt]
    exact Nat.le_of_lt hlt
  have hoffHeat : isOn (turnOff s THERMO_AC now) THERMO_HEAT = false := by
    simp [isOn, turnOff_typeOnOff, hac, hheat]
  have hr : turnOn (turnOff s THERMO_AC now) THERMO_AC now =
      (true, _setRelay (_setRelay (turnOff s THERMO_AC now) THERMO_AC true now) THERMO_FAN true
        (millisAfterDelay now 10)) := by
    unfold turnOn
    simp [hoffAC, hoffHeat, hnw]
  refine ⟨hw, by rw [hw, hw2], hlt, hnw, hoffAC, ?_, ?_⟩
  · rw [hr]
  · rw [hr]
    simp [isOn]

/-- C20 at a concrete input: AC, running since 1 s, switched off and on again
at the clock value `2^32 - 1000`. -/
theorem wraparound_defeats_cooldown_witness :
    Reachable acRunning ∧ isOn acRunning THERMO_AC = true ∧
      acRunning._acOffDelay = 300000 ∧
      (turnOff acRunning THERMO_AC 4294966296)._waitUntil = 299000 ∧
      (turnOff acRunning THERMO_AC 4294966296)._waitUntil < 4294966296 ∧
      isWaiting (turnOff acRunning THERMO_AC 4294966296) 4294966296 = false ∧
      (turnOn (turnOff acRunning THERMO_AC 4294966296) THERMO_AC 4294966296).1 = true ∧
      isOn (turnOn (turnOff acRunning THERMO_AC 4294966296) THERMO_AC 4294966296).2
        THERMO_AC = true :=
  ⟨fresh_reaches _, by decide, by decide, by decide,
    (wraparound_defeats_cooldown acRunning 4294966296 (by decide) (by decide) (by decide)
      (by decide) (by decide)).2.2.1,
    (wraparound_defeats_cooldown acRunning 4294966296 (by decide) (by decide) (by decide)
      (by decide) (by decide)).2.2.2.1,
    (wraparound_defeats_cooldown acRunning 4294966296 (by decide) (by decide) (by decide)
      (by decide) (by decide)).2.2.2.2.2.1,
    (wraparound_defeats_cooldown acRunning 4294966296 (by decide) (by decide) (by decide)
      (by decide) (by decide)).2.2.2.2.2.2⟩

end Thermostat
